import Mathlib

/-!
# goauth: guest login, token refresh and profile lookup

A shallow embedding of the HTTP handlers of `service.go` together with the data
types of `models.go` and `config.go`.

* The SQL database behind `Config.DB` is an external collaborator.  The handlers
  are embedded over an interface `DB σ` with one entry per statement the source
  issues; `memDB` is an in-memory table implementing that interface.
* The token functions (`GenerateAccessToken`, `GenerateRefreshToken`,
  `ValidateRefreshToken`, `ValidateAccessToken`) are not part of the embedded
  files; they are taken as a parameter, `TokenCodec`.
* Go `int` is 64-bit two-complement: arithmetic on it is embedded on `Int`
  with an explicit wrap modulo `2^64`.
* Every handler returns the response it writes, the final database state and
  the ordered list of effects it performed.
-/

namespace GoAuth

/-! ## Data model (`models.go`, `config.go`) -/

/-- Instants of `time.Time`, as a count of ticks. -/
abbrev Time := Int

/-- Values of `uuid.UUID` (128 bits). -/
abbrev UUID := Nat

/-- Go `type UserRole string`. -/
abbrev UserRole := String

/-- Constant `RoleUser UserRole = "USER"`. -/
def RoleUser : UserRole := "USER"

/-- Constant `RoleAdmin UserRole = "ADMIN"`. -/
def RoleAdmin : UserRole := "ADMIN"

/-- Go `type User struct`. -/
structure User where
  ID : String
  GuestID : UUID
  GoogleID : Option String
  DisplayName : String
  Role : UserRole
  IsGuest : Bool
  CreatedAt : Time
  UpdatedAt : Time
  deriving DecidableEq, Repr

/-- The zero value of `User`, as produced by `var user User`. -/
def User.zero : User := ⟨"", 0, none, "", "", false, 0, 0⟩

/-- Go `type LoginResponse struct`. -/
structure LoginResponse where
  AccessToken : String
  RefreshToken : String
  User : User
  deriving DecidableEq, Repr

/-- Go `type RefreshTokenRequest struct`. -/
structure RefreshTokenRequest where
  RefreshToken : String
  deriving DecidableEq, Repr

/-- Go `type Config struct`, without the `DB` handle, which is passed separately. -/
structure Config where
  TableName : String
  JWTSecret : String
  AccessTokenDuration : Int
  RefreshTokenDuration : Int
  GuestIDMin : Int
  GuestIDMax : Int
  deriving DecidableEq, Repr

/-- Go `DefaultConfig(db, jwtSecret)`; durations in nanoseconds. -/
def DefaultConfig (jwtSecret : String) : Config :=
  { TableName := "outcome_user"
    JWTSecret := jwtSecret
    AccessTokenDuration := 2 * 3600000000000
    RefreshTokenDuration := 30 * 24 * 3600000000000
    GuestIDMin := 1
    GuestIDMax := 100000 }

/-! ## Go `int` arithmetic -/

/-- Smallest Go `int`. -/
def minInt : Int := -(2 ^ 63)

/-- Largest Go `int`. -/
def maxInt : Int := 2 ^ 63 - 1

/-- A value representable as a Go `int`. -/
def IsGoInt (x : Int) : Prop := minInt ≤ x ∧ x ≤ maxInt

instance (x : Int) : Decidable (IsGoInt x) := by
  unfold IsGoInt; exact inferInstance

/-- Reduction of a mathematical integer to the Go `int` it wraps to. -/
def wrapInt (x : Int) : Int := (x + 2 ^ 63) % 2 ^ 64 - 2 ^ 63

/-- Go `a - b` on `int`. -/
def goSub (a b : Int) : Int := wrapInt (a - b)

/-- Go `a + b` on `int`. -/
def goAdd (a b : Int) : Int := wrapInt (a + b)

/-- The argument `s.config.GuestIDMax-s.config.GuestIDMin+1` of `rand.Intn`. -/
def intnArg (cfg : Config) : Int := goAdd (goSub cfg.GuestIDMax cfg.GuestIDMin) 1

/-- Go `rand.Intn(n)`: panics when `n <= 0`, otherwise yields the drawn value `draw`
(which the generator takes from `[0, n)`). -/
def Intn (n : Int) (draw : Int) : Except String Int :=
  if n ≤ 0 then .error "invalid argument to Intn" else .ok draw

/-- The verb `%d` of `fmt.Sprintf` on an `int`: optional minus sign, decimal digits. -/
def fmtD (n : Int) : String :=
  if n < 0 then "-" ++ Nat.repr n.natAbs else Nat.repr n.natAbs

/-- Value `randomNum` of `GuestLogin` for a drawn value `r`. -/
def guestNumber (cfg : Config) (r : Int) : Int := goAdd r cfg.GuestIDMin

/-- Go `fmt.Sprintf("Guest%d", randomNum)`. -/
def guestDisplayName (randomNum : Int) : String := "Guest" ++ fmtD randomNum

/-! ## The database interface -/

/-- Errors of `database/sql`: the sentinel `sql.ErrNoRows`, or any other error. -/
inductive SqlError where
  | ErrNoRows
  | other (msg : String)
  deriving DecidableEq, Repr

/-- Go `err.Error()`. -/
def SqlError.Error : SqlError → String
  | .ErrNoRows => "sql: no rows in result set"
  | .other msg => msg

/-- The seven columns bound by the `INSERT` of `GuestLogin` and returned by its
`RETURNING` clause. -/
structure GuestRow where
  id : String
  guest_id : UUID
  display_name : String
  role : UserRole
  is_guest : Bool
  created_at : Time
  updated_at : Time
  deriving DecidableEq, Repr

/-- Column list of the `INSERT` statement of `GuestLogin`. -/
def insertColumns : List String :=
  ["id", "guest_id", "display_name", "role", "is_guest", "created_at", "updated_at"]

/-- Go `Scan(&user.ID, &user.GuestID, &user.DisplayName, &user.Role, &user.IsGuest,
&user.CreatedAt, &user.UpdatedAt)` into a zero `User`. -/
def scanGuestRow (r : GuestRow) : User :=
  { User.zero with
    ID := r.id, GuestID := r.guest_id, DisplayName := r.display_name, Role := r.role,
    IsGuest := r.is_guest, CreatedAt := r.created_at, UpdatedAt := r.updated_at }

/-- The three statements the handlers send to `s.config.DB`, over a database
state `σ`.  Each takes the table name spliced into the query text. -/
structure DB (σ : Type) where
  /-- Go `QueryRow(INSERT INTO t (...) VALUES (...) RETURNING ...).Scan(...)`. -/
  insertReturning : σ → String → GuestRow → σ × Except SqlError GuestRow
  /-- Go `QueryRow(SELECT ... FROM t WHERE id = $1).Scan(...)`. -/
  selectByID : σ → String → String → σ × Except SqlError User
  /-- Go `Exec(UPDATE t SET updated_at = $1 WHERE id = $2)`. -/
  execTouch : σ → String → Time → String → σ × Except SqlError Unit

/-! ## The token codec (parameter) -/

/-- The claims a verified token yields; the handlers read `UserID` only. -/
structure Claims where
  UserID : String
  deriving DecidableEq, Repr

/-- Token functions used by the handlers. -/
structure TokenCodec where
  GenerateAccessToken : String → UserRole → String → Int → Except String String
  GenerateRefreshToken : String → String → Int → Except String String
  ValidateRefreshToken : String → String → Except String Claims
  ValidateAccessToken : String → String → Except String Claims

/-! ## Requests, responses, effects -/

/-- Body handed to `c.JSON`. -/
inductive Body where
  | error (msg : String)
  | login (r : LoginResponse)
  | user (u : User)
  deriving DecidableEq, Repr

/-- Observable effects of a handler, in program order. -/
inductive Event where
  | dbInsert (table : String) (row : GuestRow)
  | dbSelect (table : String) (id : String)
  | dbExec (table : String) (now : Time) (id : String)
  | issueAccess (userID : String) (role : UserRole) (secret : String) (lifetime : Int)
  | issueRefresh (userID : String) (secret : String) (lifetime : Int)
  | printf (line : String)
  deriving DecidableEq, Repr

/-- Statements sent to the database. -/
def Event.isStoreOp : Event → Bool
  | .dbInsert _ _ => true
  | .dbSelect _ _ => true
  | .dbExec _ _ _ => true
  | _ => false

/-- The `INSERT` of `GuestLogin`. -/
def Event.isInsert : Event → Bool
  | .dbInsert _ _ => true
  | _ => false

/-- The `UPDATE` of `RefreshToken`. -/
def Event.isExec : Event → Bool
  | .dbExec _ _ _ => true
  | _ => false

/-- Calls of `GenerateAccessToken` and `GenerateRefreshToken`. -/
def Event.isIssue : Event → Bool
  | .issueAccess _ _ _ _ => true
  | .issueRefresh _ _ _ => true
  | _ => false

/-- What a handler leaves behind: the response written with `c.JSON`, the
database state, and the effects performed. -/
structure Result (σ : Type) where
  status : Nat
  body : Body
  db : σ
  trace : List Event

/-- Values the handlers obtain from their surroundings during one invocation. -/
structure Env where
  codec : TokenCodec
  /-- First `uuid.New()`. -/
  guestUUID : UUID
  /-- Second `uuid.New()`. -/
  userUUID : UUID
  /-- Go `UUID.String()`. -/
  uuidString : UUID → String
  /-- The value `rand.Intn` draws. -/
  draw : Int
  /-- Go `time.Now()`. -/
  now : Time

def StatusOK : Nat := 200
def StatusBadRequest : Nat := 400
def StatusUnauthorized : Nat := 401
def StatusNotFound : Nat := 404
def StatusInternalServerError : Nat := 500

/-- JSON request body as seen by `c.ShouldBindJSON`: undecodable, or an object
whose `refresh_token` member is absent or a string. -/
inductive ReqBody where
  | malformed
  | json (refresh_token : Option String)
  deriving DecidableEq, Repr

/-- Go `c.ShouldBindJSON(&req)` for `RefreshTokenRequest`, whose only field is
tagged `binding:"required"`. -/
def ShouldBindJSON : ReqBody → Except String RefreshTokenRequest
  | .malformed => .error "invalid character"
  | .json none => .error "RefreshToken is required"
  | .json (some t) => if t = "" then .error "RefreshToken is required" else .ok ⟨t⟩

/-! ## Handlers (`service.go`) -/

/-- The tail of `GuestLogin` and `RefreshToken`: generate both tokens for `user`
and write the login response. -/
def issueTokens {σ : Type} (cfg : Config) (env : Env) (user : User) (s : σ)
    (tr : List Event) : Result σ :=
  let tr1 := tr ++ [Event.issueAccess user.ID user.Role cfg.JWTSecret cfg.AccessTokenDuration]
  match env.codec.GenerateAccessToken user.ID user.Role cfg.JWTSecret cfg.AccessTokenDuration with
  | .error _ => ⟨StatusInternalServerError, .error "Failed to generate access token", s, tr1⟩
  | .ok accessToken =>
    let tr2 := tr1 ++ [Event.issueRefresh user.ID cfg.JWTSecret cfg.RefreshTokenDuration]
    match env.codec.GenerateRefreshToken user.ID cfg.JWTSecret cfg.RefreshTokenDuration with
    | .error _ => ⟨StatusInternalServerError, .error "Failed to generate refresh token", s, tr2⟩
    | .ok refreshToken =>
      ⟨StatusOK, .login ⟨accessToken, refreshToken, user⟩, s, tr2⟩

/-- The row `GuestLogin` binds to `$1..$7` for a drawn value `r`. -/
def guestRow (cfg : Config) (env : Env) (r : Int) : GuestRow :=
  { id := env.uuidString env.userUUID
    guest_id := env.guestUUID
    display_name := guestDisplayName (guestNumber cfg r)
    role := RoleUser
    is_guest := true
    created_at := env.now
    updated_at := env.now }

/-- Go `func (s *Service) GuestLogin(c *gin.Context)`.  The result is `.error` when
the handler panics inside `rand.Intn`. -/
def GuestLogin {σ : Type} (db : DB σ) (cfg : Config) (env : Env) (s : σ) :
    Except String (Result σ) :=
  match Intn (intnArg cfg) env.draw with
  | .error p => .error p
  | .ok r =>
    let row := guestRow cfg env r
    let q := db.insertReturning s cfg.TableName row
    let tr := [Event.dbInsert cfg.TableName row]
    match q.2 with
    | .error _ => .ok ⟨StatusInternalServerError, .error "Failed to create user", q.1, tr⟩
    | .ok ret => .ok (issueTokens cfg env (scanGuestRow ret) q.1 tr)

/-- The effects of the best-effort `UPDATE` of `RefreshToken`: the statement
itself, then the warning line when it failed. -/
def touchEvents (table : String) (now : Time) (id : String) (r : Except SqlError Unit) :
    List Event :=
  match r with
  | .error e =>
    [Event.dbExec table now id,
     Event.printf ("Warning: Failed to update updated_at: " ++ e.Error ++ "\n")]
  | .ok _ => [Event.dbExec table now id]

/-- Go `func (s *Service) RefreshToken(c *gin.Context)`. -/
def RefreshToken {σ : Type} (db : DB σ) (cfg : Config) (env : Env) (reqBody : ReqBody)
    (s : σ) : Result σ :=
  match ShouldBindJSON reqBody with
  | .error _ => ⟨StatusBadRequest, .error "Invalid request body", s, []⟩
  | .ok req =>
    match env.codec.ValidateRefreshToken req.RefreshToken cfg.JWTSecret with
    | .error _ => ⟨StatusUnauthorized, .error "Invalid or expired refresh token", s, []⟩
    | .ok claims =>
      let q := db.selectByID s cfg.TableName claims.UserID
      let tr := [Event.dbSelect cfg.TableName claims.UserID]
      match q.2 with
      | .error .ErrNoRows => ⟨StatusUnauthorized, .error "User not found", q.1, tr⟩
      | .error (.other _) => ⟨StatusInternalServerError, .error "Failed to fetch user", q.1, tr⟩
      | .ok user =>
        let u := db.execTouch q.1 cfg.TableName env.now user.ID
        issueTokens cfg env user u.1 (tr ++ touchEvents cfg.TableName env.now user.ID u.2)

/-- Go `func (s *Service) GetProfile(c *gin.Context)`; `ctxUserID` is the result of
`GetUserID(c)` (`none` when the key is absent from the context). -/
def GetProfile {σ : Type} (db : DB σ) (cfg : Config) (ctxUserID : Option String) (s : σ) :
    Result σ :=
  match ctxUserID with
  | none => ⟨StatusUnauthorized, .error "User not authenticated", s, []⟩
  | some userID =>
    let q := db.selectByID s cfg.TableName userID
    let tr := [Event.dbSelect cfg.TableName userID]
    match q.2 with
    | .error .ErrNoRows => ⟨StatusNotFound, .error "User not found", q.1, tr⟩
    | .error (.other _) => ⟨StatusInternalServerError, .error "Failed to fetch user", q.1, tr⟩
    | .ok user => ⟨StatusOK, .user user, q.1, tr⟩

/-- Modelled from the spec: the authorization check `Authorize(accessToken) ->
subjectID, error` of §4.3, whose middleware is not among the embedded files:
it verifies the access token and, on success, yields the subject id. -/
def Authorize (codec : TokenCodec) (cfg : Config) (accessToken : String) :
    Except String String :=
  match codec.ValidateAccessToken accessToken cfg.JWTSecret with
  | .error e => .error e
  | .ok claims => .ok claims.UserID

/-! ## An in-memory table -/

/-- State of the in-memory table: its rows, and a schedule of injected failures
consumed one entry per statement (`some msg` makes that statement fail with
`msg`; `none`, or an exhausted schedule, lets it run). -/
structure MemStore where
  rows : List User
  faults : List (Option String)
  deriving DecidableEq, Repr

/-- First row whose `id` column equals `id`. -/
def memFind (rows : List User) (id : String) : Option User :=
  rows.find? (fun u => u.ID == id)

/-- Rows after `UPDATE ... SET updated_at = now WHERE id = id`. -/
def memTouch (rows : List User) (now : Time) (id : String) : List User :=
  rows.map (fun u => if u.ID == id then { u with UpdatedAt := now } else u)

/-- The fault scheduled for the next statement, and the remaining schedule. -/
def nextFault : List (Option String) → Option String × List (Option String)
  | [] => (none, [])
  | f :: fs => (f, fs)

/-- The in-memory table as a `DB`: `INSERT` appends the row and returns it as
written, `SELECT` yields the first matching row or `sql.ErrNoRows`, `UPDATE`
rewrites `updated_at` of the matching rows. -/
def memDB : DB MemStore where
  insertReturning m _ row :=
    match (nextFault m.faults).1 with
    | some msg => (⟨m.rows, (nextFault m.faults).2⟩, .error (.other msg))
    | none => (⟨m.rows ++ [scanGuestRow row], (nextFault m.faults).2⟩, .ok row)
  selectByID m _ id :=
    match (nextFault m.faults).1 with
    | some msg => (⟨m.rows, (nextFault m.faults).2⟩, .error (.other msg))
    | none =>
      match memFind m.rows id with
      | none => (⟨m.rows, (nextFault m.faults).2⟩, .error .ErrNoRows)
      | some u => (⟨m.rows, (nextFault m.faults).2⟩, .ok u)
  execTouch m _ now id :=
    match (nextFault m.faults).1 with
    | some msg => (⟨m.rows, (nextFault m.faults).2⟩, .error (.other msg))
    | none => (⟨memTouch m.rows now id, (nextFault m.faults).2⟩, .ok ())

/-- A codec for concrete runs.  An access token is the letter `A` followed by
the subject id, a refresh token the letter `R` followed by the subject id; a
token starting with `X` is rejected as expired, any other as badly signed. -/
def toyCodec : TokenCodec where
  GenerateAccessToken uid _ _ _ := .ok (String.mk ('A' :: uid.data))
  GenerateRefreshToken uid _ _ := .ok (String.mk ('R' :: uid.data))
  ValidateRefreshToken tok _ :=
    match tok.data with
    | 'R' :: cs => .ok ⟨String.mk cs⟩
    | 'X' :: _ => .error "token is expired"
    | _ => .error "signature is invalid"
  ValidateAccessToken tok _ :=
    match tok.data with
    | 'A' :: cs => .ok ⟨String.mk cs⟩
    | 'X' :: _ => .error "token is expired"
    | _ => .error "signature is invalid"

/-- A concrete environment: fixed identifiers, draw and clock reading. -/
def toyEnv (draw : Int) (now : Time) : Env :=
  { codec := toyCodec
    guestUUID := 7
    userUUID := 8
    uuidString := fun u => "uuid-" ++ Nat.repr u
    draw := draw
    now := now }

/-! ## Concrete inputs -/

/-- A stored guest, created and last updated at instant `100`. -/
def alice : User := ⟨"u1", 7, none, "Guest42", RoleUser, true, 100, 100⟩

/-- A configuration whose range is all non-negative Go ints. -/
def wideConfig : Config :=
  { DefaultConfig "k" with GuestIDMin := 0, GuestIDMax := 9223372036854775807 }

/-- The outcome of a guest login with default range, drawn value `41`,
clock at `1000`, empty in-memory table. -/
def guestRun : Result MemStore :=
  { status := StatusOK
    body := .login ⟨"Auuid-8", "Ruuid-8",
      ⟨"uuid-8", 7, none, "Guest42", "USER", true, 1000, 1000⟩⟩
    db := ⟨[⟨"uuid-8", 7, none, "Guest42", "USER", true, 1000, 1000⟩], []⟩
    trace := [Event.dbInsert "outcome_user" ⟨"uuid-8", 7, "Guest42", "USER", true, 1000, 1000⟩,
      Event.issueAccess "uuid-8" "USER" "k" 7200000000000,
      Event.issueRefresh "uuid-8" "k" 2592000000000000] }

/-! ## Arithmetic of the draw -/

/-- With both ends Go ints and `min ≤ max`, the argument of `rand.Intn` is
positive exactly when the span `max - min + 1` fits a Go int, and then it is
that span. -/
theorem intnArg_pos_iff (cfg : Config) (hmin : IsGoInt cfg.GuestIDMin)
    (hmax : IsGoInt cfg.GuestIDMax) (hle : cfg.GuestIDMin ≤ cfg.GuestIDMax) :
    0 < intnArg cfg ↔ cfg.GuestIDMax - cfg.GuestIDMin + 1 ≤ maxInt := by
  unfold IsGoInt minInt maxInt at hmin hmax
  unfold intnArg goAdd goSub wrapInt maxInt
  omega

theorem intnArg_eq_of_pos (cfg : Config) (hmin : IsGoInt cfg.GuestIDMin)
    (hmax : IsGoInt cfg.GuestIDMax) (hle : cfg.GuestIDMin ≤ cfg.GuestIDMax)
    (hpos : 0 < intnArg cfg) :
    intnArg cfg = cfg.GuestIDMax - cfg.GuestIDMin + 1 := by
  unfold IsGoInt minInt maxInt at hmin hmax
  unfold intnArg goAdd goSub wrapInt at hpos ⊢
  omega

theorem guestNumber_eq (cfg : Config) (r : Int) (hmin : IsGoInt cfg.GuestIDMin)
    (hmax : IsGoInt cfg.GuestIDMax) (hr0 : 0 ≤ r)
    (hr1 : r + cfg.GuestIDMin ≤ cfg.GuestIDMax) :
    guestNumber cfg r = r + cfg.GuestIDMin := by
  unfold IsGoInt minInt maxInt at hmin hmax
  unfold guestNumber goAdd wrapInt
  omega

/-! ## Unfolding lemmas for the handlers -/

theorem issueTokens_trace_head {σ : Type} (cfg : Config) (env : Env) (user : User) (s : σ)
    (e : Event) (tr : List Event) :
    (issueTokens cfg env user s (e :: tr)).trace.head? = some e := by
  unfold issueTokens
  split
  · rfl
  · split <;> rfl

theorem GuestLogin_of_pos {σ : Type} (db : DB σ) (cfg : Config) (env : Env) (s : σ)
    (hpos : 0 < intnArg cfg) :
    GuestLogin db cfg env s =
      match (db.insertReturning s cfg.TableName (guestRow cfg env env.draw)).2 with
      | .error _ =>
        .ok ⟨StatusInternalServerError, .error "Failed to create user",
          (db.insertReturning s cfg.TableName (guestRow cfg env env.draw)).1,
          [Event.dbInsert cfg.TableName (guestRow cfg env env.draw)]⟩
      | .ok ret =>
        .ok (issueTokens cfg env (scanGuestRow ret)
          (db.insertReturning s cfg.TableName (guestRow cfg env env.draw)).1
          [Event.dbInsert cfg.TableName (guestRow cfg env env.draw)]) := by
  unfold GuestLogin Intn
  rw [if_neg (not_le.mpr hpos)]

theorem GuestLogin_of_nonpos {σ : Type} (db : DB σ) (cfg : Config) (env : Env) (s : σ)
    (h : intnArg cfg ≤ 0) :
    GuestLogin db cfg env s = .error "invalid argument to Intn" := by
  unfold GuestLogin Intn
  rw [if_pos h]

/-! ## Guest display name (C1) and the bound of the draw (C10) -/

/-- C1: for every configuration with `GuestIDMin ≤ GuestIDMax` and every drawn
value `r` with `0 ≤ r < GuestIDMax-GuestIDMin+1`, `GuestLogin` completes and the
display name it submits for the new guest is `"Guest"` followed by the decimal
rendering of `N = r + GuestIDMin`, where `GuestIDMin ≤ N ≤ GuestIDMax`; some
draw yields `GuestIDMin` and some draw yields `GuestIDMax`. -/
theorem guestLogin_display_name_in_range {σ : Type} (db : DB σ) (cfg : Config) (env : Env)
    (s : σ) (hmin : IsGoInt cfg.GuestIDMin) (hmax : IsGoInt cfg.GuestIDMax)
    (hle : cfg.GuestIDMin ≤ cfg.GuestIDMax)
    (hr0 : 0 ≤ env.draw) (hr1 : env.draw < intnArg cfg) :
    ∃ res row, GuestLogin db cfg env s = .ok res ∧
      res.trace.head? = some (Event.dbInsert cfg.TableName row) ∧
      row.display_name = "Guest" ++ fmtD (env.draw + cfg.GuestIDMin) ∧
      cfg.GuestIDMin ≤ env.draw + cfg.GuestIDMin ∧
      env.draw + cfg.GuestIDMin ≤ cfg.GuestIDMax ∧
      (∃ r0, 0 ≤ r0 ∧ r0 < intnArg cfg ∧ guestNumber cfg r0 = cfg.GuestIDMin) ∧
      (∃ r1, 0 ≤ r1 ∧ r1 < intnArg cfg ∧ guestNumber cfg r1 = cfg.GuestIDMax) := by
  have hpos : 0 < intnArg cfg := lt_of_le_of_lt hr0 hr1
  have hb := intnArg_eq_of_pos cfg hmin hmax hle hpos
  have hN : env.draw + cfg.GuestIDMin ≤ cfg.GuestIDMax := by omega
  have hname : (guestRow cfg env env.draw).display_name
      = "Guest" ++ fmtD (env.draw + cfg.GuestIDMin) := by
    show guestDisplayName (guestNumber cfg env.draw) = _
    rw [guestNumber_eq cfg env.draw hmin hmax hr0 hN]
    rfl
  have hrun : ∃ res, GuestLogin db cfg env s = .ok res ∧
      res.trace.head? = some (Event.dbInsert cfg.TableName (guestRow cfg env env.draw)) := by
    rw [GuestLogin_of_pos db cfg env s hpos]
    split
    · exact ⟨_, rfl, rfl⟩
    · exact ⟨_, rfl, issueTokens_trace_head _ _ _ _ _ _⟩
  obtain ⟨res, hres, htr⟩ := hrun
  refine ⟨res, guestRow cfg env env.draw, hres, htr, hname, by omega, hN, ?_, ?_⟩
  · refine ⟨0, le_refl 0, hpos, ?_⟩
    rw [guestNumber_eq cfg 0 hmin hmax (le_refl 0) (by omega)]
    omega
  · refine ⟨cfg.GuestIDMax - cfg.GuestIDMin, by omega, by omega, ?_⟩
    rw [guestNumber_eq cfg _ hmin hmax (by omega) (by omega)]
    omega

/-- Concrete run: default range `[1, 100000]`,
drawn value `41`, empty in-memory table. -/
theorem guestLogin_display_name_in_range_witness :
    ∃ res row, GuestLogin memDB (DefaultConfig "k") (toyEnv 41 1000) ⟨[], []⟩ = .ok res ∧
      res.trace.head? = some (Event.dbInsert "outcome_user" row) ∧
      row.display_name = "Guest" ++ fmtD (41 + 1) ∧
      (1 : Int) ≤ 41 + 1 ∧ (41 : Int) + 1 ≤ 100000 ∧
      (∃ r0, 0 ≤ r0 ∧ r0 < intnArg (DefaultConfig "k")
        ∧ guestNumber (DefaultConfig "k") r0 = 1) ∧
      (∃ r1, 0 ≤ r1 ∧ r1 < intnArg (DefaultConfig "k")
        ∧ guestNumber (DefaultConfig "k") r1 = 100000) :=
  guestLogin_display_name_in_range memDB (DefaultConfig "k") (toyEnv 41 1000) ⟨[], []⟩
    (by decide) (by decide) (by decide) (by decide) (by decide)

/-- C10 fails as stated: with `GuestIDMin = 0` and `GuestIDMax = 2^63 - 1` (so
`GuestIDMin ≤ GuestIDMax`), the argument of `rand.Intn` wraps to `-2^63`, which
is not positive, and `GuestLogin` panics. -/
theorem intnArg_wideConfig_not_positive :
    IsGoInt wideConfig.GuestIDMin ∧ IsGoInt wideConfig.GuestIDMax ∧
    wideConfig.GuestIDMin ≤ wideConfig.GuestIDMax ∧
    intnArg wideConfig = -9223372036854775808 ∧ ¬ 0 < intnArg wideConfig ∧
    GuestLogin memDB wideConfig (toyEnv 0 0) ⟨[], []⟩ = .error "invalid argument to Intn" := by
  have h : intnArg wideConfig = -9223372036854775808 := by decide
  refine ⟨by decide, by decide, by decide, h, by rw [h]; decide, ?_⟩
  exact GuestLogin_of_nonpos _ _ _ _ (by rw [h]; decide)

/-- C10, amended: for every configuration with `GuestIDMin ≤ GuestIDMax`, the
argument `GuestIDMax - GuestIDMin + 1` of `rand.Intn`, computed on wrapping
64-bit ints, is strictly positive exactly when the span
`GuestIDMax - GuestIDMin + 1` does not exceed `2^63 - 1`; in that case it equals
the span and `GuestLogin` does not panic, otherwise `GuestLogin` panics. -/
theorem intnArg_pos_iff_span_fits {σ : Type} (db : DB σ) (cfg : Config) (env : Env) (s : σ)
    (hmin : IsGoInt cfg.GuestIDMin) (hmax : IsGoInt cfg.GuestIDMax)
    (hle : cfg.GuestIDMin ≤ cfg.GuestIDMax) :
    (0 < intnArg cfg ↔ cfg.GuestIDMax - cfg.GuestIDMin + 1 ≤ maxInt) ∧
    (cfg.GuestIDMax - cfg.GuestIDMin + 1 ≤ maxInt →
      intnArg cfg = cfg.GuestIDMax - cfg.GuestIDMin + 1 ∧
      ∃ res, GuestLogin db cfg env s = .ok res) ∧
    (maxInt < cfg.GuestIDMax - cfg.GuestIDMin + 1 →
      GuestLogin db cfg env s = .error "invalid argument to Intn") := by
  have hiff := intnArg_pos_iff cfg hmin hmax hle
  refine ⟨hiff, ?_, ?_⟩
  · intro hspan
    have hpos := hiff.mpr hspan
    refine ⟨intnArg_eq_of_pos cfg hmin hmax hle hpos, ?_⟩
    rw [GuestLogin_of_pos db cfg env s hpos]
    split
    · exact ⟨_, rfl⟩
    · exact ⟨_, rfl⟩
  · intro hwide
    apply GuestLogin_of_nonpos
    by_contra hcon
    exact absurd (hiff.mp (not_le.mp hcon)) (not_le.mpr hwide)

/-- Concrete run on the default configuration. -/
theorem intnArg_pos_iff_span_fits_witness :
    (0 < intnArg (DefaultConfig "k") ↔ (100000 : Int) - 1 + 1 ≤ maxInt) ∧
    ((100000 : Int) - 1 + 1 ≤ maxInt →
      intnArg (DefaultConfig "k") = 100000 - 1 + 1 ∧
      ∃ res, GuestLogin memDB (DefaultConfig "k") (toyEnv 5 0) ⟨[], []⟩ = .ok res) ∧
    (maxInt < (100000 : Int) - 1 + 1 →
      GuestLogin memDB (DefaultConfig "k") (toyEnv 5 0) ⟨[], []⟩
        = .error "invalid argument to Intn") :=
  intnArg_pos_iff_span_fits memDB (DefaultConfig "k") (toyEnv 5 0) ⟨[], []⟩
    (by decide) (by decide) (by decide)

/-! ## Refresh: what the response carries (C2) -/

theorem ShouldBindJSON_some (tok : String) (h : tok ≠ "") :
    ShouldBindJSON (.json (some tok)) = .ok ⟨tok⟩ := by
  show (if tok = "" then _ else _) = _
  rw [if_neg h]

theorem RefreshToken_of_found {σ : Type} (db : DB σ) (cfg : Config) (env : Env)
    (reqBody : ReqBody) (s : σ) (req : RefreshTokenRequest) (claims : Claims) (user : User)
    (hbind : ShouldBindJSON reqBody = .ok req)
    (hval : env.codec.ValidateRefreshToken req.RefreshToken cfg.JWTSecret = .ok claims)
    (hsel : (db.selectByID s cfg.TableName claims.UserID).2 = .ok user) :
    RefreshToken db cfg env reqBody s =
      issueTokens cfg env user
        (db.execTouch (db.selectByID s cfg.TableName claims.UserID).1
          cfg.TableName env.now user.ID).1
        ([Event.dbSelect cfg.TableName claims.UserID] ++
          touchEvents cfg.TableName env.now user.ID
            (db.execTouch (db.selectByID s cfg.TableName claims.UserID).1
              cfg.TableName env.now user.ID).2) := by
  unfold RefreshToken
  simp only [hbind, hval, hsel]

theorem issueTokens_ok {σ : Type} (cfg : Config) (env : Env) (user : User) (s : σ)
    (tr : List Event) (a r : String)
    (hA : env.codec.GenerateAccessToken user.ID user.Role cfg.JWTSecret
      cfg.AccessTokenDuration = .ok a)
    (hR : env.codec.GenerateRefreshToken user.ID cfg.JWTSecret
      cfg.RefreshTokenDuration = .ok r) :
    issueTokens cfg env user s tr =
      ⟨StatusOK, .login ⟨a, r, user⟩, s,
        tr ++ [Event.issueAccess user.ID user.Role cfg.JWTSecret cfg.AccessTokenDuration]
          ++ [Event.issueRefresh user.ID cfg.JWTSecret cfg.RefreshTokenDuration]⟩ := by
  unfold issueTokens
  simp only [hA, hR]

theorem memFind_id (rows : List User) (id : String) (u : User)
    (h : memFind rows id = some u) : u.ID = id := by
  unfold memFind at h
  have := List.find?_some h
  simpa using this

theorem memFind_memTouch (rows : List User) (now : Time) (id : String) :
    memFind (memTouch rows now id) id
      = (memFind rows id).map (fun u => { u with UpdatedAt := now }) := by
  induction rows with
  | nil => rfl
  | cons x xs ih =>
    unfold memFind memTouch at ih ⊢
    by_cases hx : x.ID = id
    · simp [List.find?, hx]
    · have hb : (x.ID == id) = false := beq_eq_false_iff_ne.mpr hx
      rw [List.map_cons, hb, List.find?_cons, List.find?_cons]
      simp only [Bool.false_eq_true, if_false, hb]
      exact ih

/-- C2 fails as stated: a table holds `alice` (last update `100`); a refresh at
instant `200` succeeds and its `UPDATE` is persisted, so the stored record then
has last update `200`, yet the identity in the response is the row read before
the `UPDATE`, with last update `100`. -/
theorem refresh_response_has_stale_timestamp :
    (RefreshToken memDB (DefaultConfig "k") (toyEnv 0 200) (.json (some "Ru1"))
        ⟨[alice], []⟩).status = StatusOK ∧
    (RefreshToken memDB (DefaultConfig "k") (toyEnv 0 200) (.json (some "Ru1"))
        ⟨[alice], []⟩).body = .login ⟨"Au1", "Ru1", alice⟩ ∧
    (RefreshToken memDB (DefaultConfig "k") (toyEnv 0 200) (.json (some "Ru1"))
        ⟨[alice], []⟩).trace =
      [Event.dbSelect "outcome_user" "u1", Event.dbExec "outcome_user" 200 "u1",
       Event.issueAccess "u1" "USER" "k" 7200000000000,
       Event.issueRefresh "u1" "k" 2592000000000000] ∧
    memFind (RefreshToken memDB (DefaultConfig "k") (toyEnv 0 200) (.json (some "Ru1"))
        ⟨[alice], []⟩).db.rows "u1" = some { alice with UpdatedAt := 200 } ∧
    some alice ≠ memFind (RefreshToken memDB (DefaultConfig "k") (toyEnv 0 200)
        (.json (some "Ru1")) ⟨[alice], []⟩).db.rows "u1" ∧
    alice.UpdatedAt ≠ 200 := by
  refine ⟨by decide, by decide, by decide, by decide, by decide, by decide⟩

theorem memDB_select_found (rows : List User) (faults : List (Option String)) (table id : String)
    (user : User) (hf : (nextFault faults).1 = none) (hfind : memFind rows id = some user) :
    memDB.selectByID ⟨rows, faults⟩ table id = (⟨rows, (nextFault faults).2⟩, .ok user) := by
  show (match (nextFault faults).1 with
    | some msg => _
    | none => match memFind rows id with
      | none => _
      | some u => _) = _
  rw [hf, hfind]

theorem memDB_exec_ok (rows : List User) (faults : List (Option String)) (table id : String)
    (now : Time) (hf : (nextFault faults).1 = none) :
    memDB.execTouch ⟨rows, faults⟩ table now id
      = (⟨memTouch rows now id, (nextFault faults).2⟩, .ok ()) := by
  show (match (nextFault faults).1 with
    | some msg => _
    | none => _) = _
  rw [hf]

/-- C2, amended: for every refresh on the in-memory table that succeeds (the
refresh token verifies, the identity is found, the timestamp update is
persisted, both tokens are issued), the identity in the response is the record
the store held for the subject before the timestamp update; the record the
store holds after the refresh is that identity with its last-update timestamp
replaced by the instant written during the refresh. -/
theorem refresh_response_is_record_before_touch (cfg : Config) (env : Env) (tok : String)
    (rows : List User) (faults : List (Option String)) (claims : Claims) (user : User)
    (a r : String) (htok : tok ≠ "")
    (hval : env.codec.ValidateRefreshToken tok cfg.JWTSecret = .ok claims)
    (hfind : memFind rows claims.UserID = some user)
    (hf1 : (nextFault faults).1 = none) (hf2 : (nextFault (nextFault faults).2).1 = none)
    (hA : env.codec.GenerateAccessToken user.ID user.Role cfg.JWTSecret
      cfg.AccessTokenDuration = .ok a)
    (hR : env.codec.GenerateRefreshToken user.ID cfg.JWTSecret
      cfg.RefreshTokenDuration = .ok r) :
    (RefreshToken memDB cfg env (.json (some tok)) ⟨rows, faults⟩).status = StatusOK ∧
    (RefreshToken memDB cfg env (.json (some tok)) ⟨rows, faults⟩).body
      = .login ⟨a, r, user⟩ ∧
    Event.dbExec cfg.TableName env.now claims.UserID
      ∈ (RefreshToken memDB cfg env (.json (some tok)) ⟨rows, faults⟩).trace ∧
    memFind (RefreshToken memDB cfg env (.json (some tok)) ⟨rows, faults⟩).db.rows
      claims.UserID = some { user with UpdatedAt := env.now } := by
  have hid := memFind_id rows claims.UserID user hfind
  have hsel := memDB_select_found rows faults cfg.TableName claims.UserID user hf1 hfind
  have hrun := RefreshToken_of_found memDB cfg env (.json (some tok)) ⟨rows, faults⟩
    ⟨tok⟩ claims user (ShouldBindJSON_some tok htok) hval (by rw [hsel])
  rw [hsel] at hrun
  simp only [] at hrun
  rw [memDB_exec_ok rows _ cfg.TableName user.ID env.now hf2, issueTokens_ok cfg env user _ _ a r hA hR]
    at hrun
  rw [hrun]
  refine ⟨rfl, rfl, ?_, ?_⟩
  · simp [touchEvents, hid]
  · show memFind (memTouch rows env.now user.ID) claims.UserID = _
    have hstore := memFind_memTouch rows env.now claims.UserID
    rw [hfind] at hstore
    have hsame : memTouch rows env.now user.ID = memTouch rows env.now claims.UserID := by
      rw [hid]
    rw [hsame]
    exact hstore

/-- Concrete run: `alice` refreshes at
instant `200`. -/
theorem refresh_response_is_record_before_touch_witness :
    (RefreshToken memDB (DefaultConfig "k") (toyEnv 0 200) (.json (some "Ru1"))
        ⟨[alice], []⟩).status = StatusOK ∧
    (RefreshToken memDB (DefaultConfig "k") (toyEnv 0 200) (.json (some "Ru1"))
        ⟨[alice], []⟩).body = .login ⟨"Au1", "Ru1", alice⟩ ∧
    Event.dbExec "outcome_user" 200 "u1"
      ∈ (RefreshToken memDB (DefaultConfig "k") (toyEnv 0 200) (.json (some "Ru1"))
        ⟨[alice], []⟩).trace ∧
    memFind (RefreshToken memDB (DefaultConfig "k") (toyEnv 0 200) (.json (some "Ru1"))
        ⟨[alice], []⟩).db.rows "u1" = some { alice with UpdatedAt := 200 } :=
  refresh_response_is_record_before_touch (DefaultConfig "k") (toyEnv 0 200) "Ru1"
    [alice] [] ⟨"u1"⟩ alice "Au1" "Ru1" (by decide) rfl rfl rfl rfl rfl rfl

/-! ## Refresh: authentication failures (C3, C4, C5) -/

theorem status_401_ne_404 : StatusUnauthorized ≠ StatusNotFound := by decide

theorem status_500_ne_401 : StatusInternalServerError ≠ StatusUnauthorized := by decide

theorem status_500_ne_404 : StatusInternalServerError ≠ StatusNotFound := by decide

theorem status_500_ne_200 : StatusInternalServerError ≠ StatusOK := by decide

theorem RefreshToken_of_invalid {σ : Type} (db : DB σ) (cfg : Config) (env : Env)
    (reqBody : ReqBody) (s : σ) (req : RefreshTokenRequest) (e : String)
    (hbind : ShouldBindJSON reqBody = .ok req)
    (hval : env.codec.ValidateRefreshToken req.RefreshToken cfg.JWTSecret = .error e) :
    RefreshToken db cfg env reqBody s =
      ⟨StatusUnauthorized, .error "Invalid or expired refresh token", s, []⟩ := by
  unfold RefreshToken
  simp only [hbind, hval]

theorem RefreshToken_of_select_error {σ : Type} (db : DB σ) (cfg : Config) (env : Env)
    (reqBody : ReqBody) (s : σ) (req : RefreshTokenRequest) (claims : Claims) (e : SqlError)
    (hbind : ShouldBindJSON reqBody = .ok req)
    (hval : env.codec.ValidateRefreshToken req.RefreshToken cfg.JWTSecret = .ok claims)
    (hsel : (db.selectByID s cfg.TableName claims.UserID).2 = .error e) :
    RefreshToken db cfg env reqBody s =
      match e with
      | .ErrNoRows =>
        ⟨StatusUnauthorized, .error "User not found",
          (db.selectByID s cfg.TableName claims.UserID).1,
          [Event.dbSelect cfg.TableName claims.UserID]⟩
      | .other _ =>
        ⟨StatusInternalServerError, .error "Failed to fetch user",
          (db.selectByID s cfg.TableName claims.UserID).1,
          [Event.dbSelect cfg.TableName claims.UserID]⟩ := by
  unfold RefreshToken
  simp only [hbind, hval, hsel]
  cases e <;> rfl

theorem GetProfile_of_select_error {σ : Type} (db : DB σ) (cfg : Config) (userID : String)
    (s : σ) (e : SqlError) (hsel : (db.selectByID s cfg.TableName userID).2 = .error e) :
    GetProfile db cfg (some userID) s =
      match e with
      | .ErrNoRows =>
        ⟨StatusNotFound, .error "User not found", (db.selectByID s cfg.TableName userID).1,
          [Event.dbSelect cfg.TableName userID]⟩
      | .other _ =>
        ⟨StatusInternalServerError, .error "Failed to fetch user",
          (db.selectByID s cfg.TableName userID).1, [Event.dbSelect cfg.TableName userID]⟩ := by
  unfold GetProfile
  simp only [hsel]
  cases e <;> rfl

/-- C3 fails as stated: on a table holding `alice`, a refresh with an expired
token and a refresh with a valid token for an unknown subject are both answered
`401`, but with different error messages. -/
theorem refresh_auth_failures_distinguishable :
    (RefreshToken memDB (DefaultConfig "k") (toyEnv 0 200) (.json (some "Xu1"))
        ⟨[alice], []⟩).status = StatusUnauthorized ∧
    (RefreshToken memDB (DefaultConfig "k") (toyEnv 0 200) (.json (some "Ru2"))
        ⟨[alice], []⟩).status = StatusUnauthorized ∧
    (RefreshToken memDB (DefaultConfig "k") (toyEnv 0 200) (.json (some "Xu1"))
        ⟨[alice], []⟩).body = .error "Invalid or expired refresh token" ∧
    (RefreshToken memDB (DefaultConfig "k") (toyEnv 0 200) (.json (some "Ru2"))
        ⟨[alice], []⟩).body = .error "User not found" ∧
    (RefreshToken memDB (DefaultConfig "k") (toyEnv 0 200) (.json (some "Xu1"))
        ⟨[alice], []⟩).body ≠
      (RefreshToken memDB (DefaultConfig "k") (toyEnv 0 200) (.json (some "Ru2"))
        ⟨[alice], []⟩).body := by
  refine ⟨by decide, by decide, by decide, by decide, by decide⟩

/-- C3, amended: any two refreshes that fail token verification, whatever the
verification error, get the same response, `401` with the message
`Invalid or expired refresh token`; a refresh whose token verifies but whose
subject has no row also gets `401`, but with the message `User not found`, so
the status is uniform across authentication failures while the message tells a
missing identity from a rejected token. -/
theorem refresh_auth_failure_status_uniform {σ : Type} (db1 db2 db3 : DB σ)
    (cfg1 cfg2 cfg3 : Config) (env1 env2 env3 : Env) (b1 b2 b3 : ReqBody) (s1 s2 s3 : σ)
    (req1 req2 req3 : RefreshTokenRequest) (e1 e2 : String) (claims : Claims)
    (hbind1 : ShouldBindJSON b1 = .ok req1)
    (hval1 : env1.codec.ValidateRefreshToken req1.RefreshToken cfg1.JWTSecret = .error e1)
    (hbind2 : ShouldBindJSON b2 = .ok req2)
    (hval2 : env2.codec.ValidateRefreshToken req2.RefreshToken cfg2.JWTSecret = .error e2)
    (hbind3 : ShouldBindJSON b3 = .ok req3)
    (hval3 : env3.codec.ValidateRefreshToken req3.RefreshToken cfg3.JWTSecret = .ok claims)
    (hsel3 : (db3.selectByID s3 cfg3.TableName claims.UserID).2 = .error .ErrNoRows) :
    (RefreshToken db1 cfg1 env1 b1 s1).status = StatusUnauthorized ∧
    (RefreshToken db2 cfg2 env2 b2 s2).status = StatusUnauthorized ∧
    (RefreshToken db3 cfg3 env3 b3 s3).status = StatusUnauthorized ∧
    (RefreshToken db1 cfg1 env1 b1 s1).body = (RefreshToken db2 cfg2 env2 b2 s2).body ∧
    (RefreshToken db1 cfg1 env1 b1 s1).body = .error "Invalid or expired refresh token" ∧
    (RefreshToken db3 cfg3 env3 b3 s3).body = .error "User not found" ∧
    (RefreshToken db1 cfg1 env1 b1 s1).body ≠ (RefreshToken db3 cfg3 env3 b3 s3).body := by
  rw [RefreshToken_of_invalid db1 cfg1 env1 b1 s1 req1 e1 hbind1 hval1,
    RefreshToken_of_invalid db2 cfg2 env2 b2 s2 req2 e2 hbind2 hval2,
    RefreshToken_of_select_error db3 cfg3 env3 b3 s3 req3 claims _ hbind3 hval3 hsel3]
  refine ⟨rfl, rfl, rfl, rfl, rfl, rfl, ?_⟩
  show Body.error "Invalid or expired refresh token" ≠ Body.error "User not found"
  decide

/-- Concrete run: an expired token, a badly
signed token, and a valid token for the unknown subject `u2`. -/
theorem refresh_auth_failure_status_uniform_witness :
    (RefreshToken memDB (DefaultConfig "k") (toyEnv 0 200) (.json (some "Xu1"))
        ⟨[alice], []⟩).status = StatusUnauthorized ∧
    (RefreshToken memDB (DefaultConfig "k") (toyEnv 0 200) (.json (some "Zu1"))
        ⟨[alice], []⟩).status = StatusUnauthorized ∧
    (RefreshToken memDB (DefaultConfig "k") (toyEnv 0 200) (.json (some "Ru2"))
        ⟨[alice], []⟩).status = StatusUnauthorized ∧
    (RefreshToken memDB (DefaultConfig "k") (toyEnv 0 200) (.json (some "Xu1"))
        ⟨[alice], []⟩).body =
      (RefreshToken memDB (DefaultConfig "k") (toyEnv 0 200) (.json (some "Zu1"))
        ⟨[alice], []⟩).body ∧
    (RefreshToken memDB (DefaultConfig "k") (toyEnv 0 200) (.json (some "Xu1"))
        ⟨[alice], []⟩).body = .error "Invalid or expired refresh token" ∧
    (RefreshToken memDB (DefaultConfig "k") (toyEnv 0 200) (.json (some "Ru2"))
        ⟨[alice], []⟩).body = .error "User not found" ∧
    (RefreshToken memDB (DefaultConfig "k") (toyEnv 0 200) (.json (some "Xu1"))
        ⟨[alice], []⟩).body ≠
      (RefreshToken memDB (DefaultConfig "k") (toyEnv 0 200) (.json (some "Ru2"))
        ⟨[alice], []⟩).body :=
  refresh_auth_failure_status_uniform memDB memDB memDB (DefaultConfig "k") (DefaultConfig "k")
    (DefaultConfig "k") (toyEnv 0 200) (toyEnv 0 200) (toyEnv 0 200) (.json (some "Xu1"))
    (.json (some "Zu1")) (.json (some "Ru2")) ⟨[alice], []⟩ ⟨[alice], []⟩ ⟨[alice], []⟩
    ⟨"Xu1"⟩ ⟨"Zu1"⟩ ⟨"Ru2"⟩ "token is expired" "signature is invalid" ⟨"u2"⟩
    rfl rfl rfl rfl rfl rfl rfl

/-- C4: when the lookup of the subject fails with `sql.ErrNoRows`, `RefreshToken`
(token verified) answers `401`, not `404`, with an error body and no token
issued, while `GetProfile` (subject id in the context) answers `404`; when the
lookup fails with any other error, both answer `500`, neither `401` nor `404`. -/
theorem missing_identity_mapping {σ : Type} (db : DB σ) (cfg : Config) (env : Env)
    (reqBody : ReqBody) (s : σ) (req : RefreshTokenRequest) (claims : Claims) (e : SqlError)
    (hbind : ShouldBindJSON reqBody = .ok req)
    (hval : env.codec.ValidateRefreshToken req.RefreshToken cfg.JWTSecret = .ok claims)
    (hsel : (db.selectByID s cfg.TableName claims.UserID).2 = .error e) :
    (e = .ErrNoRows →
      (RefreshToken db cfg env reqBody s).status = StatusUnauthorized ∧
      (RefreshToken db cfg env reqBody s).status ≠ StatusNotFound ∧
      (RefreshToken db cfg env reqBody s).body = .error "User not found" ∧
      (∀ ev ∈ (RefreshToken db cfg env reqBody s).trace, ev.isIssue = false) ∧
      (GetProfile db cfg (some claims.UserID) s).status = StatusNotFound ∧
      (GetProfile db cfg (some claims.UserID) s).body = .error "User not found") ∧
    (e ≠ .ErrNoRows →
      (RefreshToken db cfg env reqBody s).status = StatusInternalServerError ∧
      (RefreshToken db cfg env reqBody s).status ≠ StatusUnauthorized ∧
      (RefreshToken db cfg env reqBody s).status ≠ StatusNotFound ∧
      (∀ ev ∈ (RefreshToken db cfg env reqBody s).trace, ev.isIssue = false) ∧
      (GetProfile db cfg (some claims.UserID) s).status = StatusInternalServerError ∧
      (GetProfile db cfg (some claims.UserID) s).status ≠ StatusUnauthorized ∧
      (GetProfile db cfg (some claims.UserID) s).status ≠ StatusNotFound) := by
  rw [RefreshToken_of_select_error db cfg env reqBody s req claims e hbind hval hsel,
    GetProfile_of_select_error db cfg claims.UserID s e hsel]
  cases e with
  | ErrNoRows =>
    refine ⟨fun _ => ⟨rfl, status_401_ne_404, rfl, ?_, rfl, rfl⟩, fun h => absurd rfl h⟩
    intro ev hev
    rw [List.mem_singleton] at hev
    rw [hev]
    rfl
  | other msg =>
    refine ⟨fun h => SqlError.noConfusion h, fun _ => ⟨rfl, status_500_ne_401,
      status_500_ne_404, ?_, rfl, status_500_ne_401, status_500_ne_404⟩⟩
    intro ev hev
    rw [List.mem_singleton] at hev
    rw [hev]
    rfl

/-- Two concrete runs on a table holding `alice`: subject
`u2` has no row; then the lookup of `u1` hits an injected connection failure. -/
theorem missing_identity_mapping_witness :
    ((RefreshToken memDB (DefaultConfig "k") (toyEnv 0 200) (.json (some "Ru2"))
        ⟨[alice], []⟩).status = StatusUnauthorized ∧
      (RefreshToken memDB (DefaultConfig "k") (toyEnv 0 200) (.json (some "Ru2"))
        ⟨[alice], []⟩).status ≠ StatusNotFound ∧
      (RefreshToken memDB (DefaultConfig "k") (toyEnv 0 200) (.json (some "Ru2"))
        ⟨[alice], []⟩).body = .error "User not found" ∧
      (∀ ev ∈ (RefreshToken memDB (DefaultConfig "k") (toyEnv 0 200) (.json (some "Ru2"))
        ⟨[alice], []⟩).trace, ev.isIssue = false) ∧
      (GetProfile memDB (DefaultConfig "k") (some "u2") ⟨[alice], []⟩).status
        = StatusNotFound ∧
      (GetProfile memDB (DefaultConfig "k") (some "u2") ⟨[alice], []⟩).body
        = .error "User not found") ∧
    ((RefreshToken memDB (DefaultConfig "k") (toyEnv 0 200) (.json (some "Ru1"))
        ⟨[alice], [some "connection refused"]⟩).status = StatusInternalServerError ∧
      (RefreshToken memDB (DefaultConfig "k") (toyEnv 0 200) (.json (some "Ru1"))
        ⟨[alice], [some "connection refused"]⟩).status ≠ StatusUnauthorized ∧
      (RefreshToken memDB (DefaultConfig "k") (toyEnv 0 200) (.json (some "Ru1"))
        ⟨[alice], [some "connection refused"]⟩).status ≠ StatusNotFound ∧
      (∀ ev ∈ (RefreshToken memDB (DefaultConfig "k") (toyEnv 0 200) (.json (some "Ru1"))
        ⟨[alice], [some "connection refused"]⟩).trace, ev.isIssue = false) ∧
      (GetProfile memDB (DefaultConfig "k") (some "u1")
        ⟨[alice], [some "connection refused"]⟩).status = StatusInternalServerError ∧
      (GetProfile memDB (DefaultConfig "k") (some "u1")
        ⟨[alice], [some "connection refused"]⟩).status ≠ StatusUnauthorized ∧
      (GetProfile memDB (DefaultConfig "k") (some "u1")
        ⟨[alice], [some "connection refused"]⟩).status ≠ StatusNotFound) :=
  ⟨(missing_identity_mapping memDB (DefaultConfig "k") (toyEnv 0 200) (.json (some "Ru2"))
      ⟨[alice], []⟩ ⟨"Ru2"⟩ ⟨"u2"⟩ .ErrNoRows rfl rfl rfl).1 rfl,
   (missing_identity_mapping memDB (DefaultConfig "k") (toyEnv 0 200) (.json (some "Ru1"))
      ⟨[alice], [some "connection refused"]⟩ ⟨"Ru1"⟩ ⟨"u1"⟩ (.other "connection refused")
      rfl rfl rfl).2 (by decide)⟩

/-- C5: a refresh whose token fails verification is answered `401`, sends no
statement to the store (its effect list is empty) and leaves the store state
as it was; a refresh whose identity lookup fails (no row, or a store error)
sends the `SELECT` only, and no `UPDATE`. -/
theorem failed_refresh_leaves_store_untouched {σ : Type} (db : DB σ) (cfg : Config)
    (env : Env) (reqBody : ReqBody) (s : σ) (req : RefreshTokenRequest)
    (hbind : ShouldBindJSON reqBody = .ok req) :
    (∀ e, env.codec.ValidateRefreshToken req.RefreshToken cfg.JWTSecret = .error e →
      (RefreshToken db cfg env reqBody s).status = StatusUnauthorized ∧
      (RefreshToken db cfg env reqBody s).trace = [] ∧
      (∀ ev ∈ (RefreshToken db cfg env reqBody s).trace, ev.isStoreOp = false) ∧
      (RefreshToken db cfg env reqBody s).db = s) ∧
    (∀ claims e, env.codec.ValidateRefreshToken req.RefreshToken cfg.JWTSecret = .ok claims →
      (db.selectByID s cfg.TableName claims.UserID).2 = .error e →
      (RefreshToken db cfg env reqBody s).trace = [Event.dbSelect cfg.TableName claims.UserID] ∧
      (∀ ev ∈ (RefreshToken db cfg env reqBody s).trace, ev.isExec = false) ∧
      (RefreshToken db cfg env reqBody s).db
        = (db.selectByID s cfg.TableName claims.UserID).1) := by
  constructor
  · intro e hval
    rw [RefreshToken_of_invalid db cfg env reqBody s req e hbind hval]
    refine ⟨rfl, rfl, ?_, rfl⟩
    intro ev hev
    exact absurd hev (List.not_mem_nil ev)
  · intro claims e hval hsel
    rw [RefreshToken_of_select_error db cfg env reqBody s req claims e hbind hval hsel]
    cases e with
    | ErrNoRows =>
      refine ⟨rfl, ?_, rfl⟩
      intro ev hev
      rw [List.mem_singleton] at hev
      rw [hev]
      rfl
    | other msg =>
      refine ⟨rfl, ?_, rfl⟩
      intro ev hev
      rw [List.mem_singleton] at hev
      rw [hev]
      rfl

/-- Two concrete runs on a table holding `alice`: an expired token; then a valid token for the unknown subject `u2`. -/
theorem failed_refresh_leaves_store_untouched_witness :
    ((RefreshToken memDB (DefaultConfig "k") (toyEnv 0 200) (.json (some "Xu1"))
        ⟨[alice], []⟩).status = StatusUnauthorized ∧
      (RefreshToken memDB (DefaultConfig "k") (toyEnv 0 200) (.json (some "Xu1"))
        ⟨[alice], []⟩).trace = [] ∧
      (∀ ev ∈ (RefreshToken memDB (DefaultConfig "k") (toyEnv 0 200) (.json (some "Xu1"))
        ⟨[alice], []⟩).trace, ev.isStoreOp = false) ∧
      (RefreshToken memDB (DefaultConfig "k") (toyEnv 0 200) (.json (some "Xu1"))
        ⟨[alice], []⟩).db = ⟨[alice], []⟩) ∧
    ((RefreshToken memDB (DefaultConfig "k") (toyEnv 0 200) (.json (some "Ru2"))
        ⟨[alice], []⟩).trace = [Event.dbSelect "outcome_user" "u2"] ∧
      (∀ ev ∈ (RefreshToken memDB (DefaultConfig "k") (toyEnv 0 200) (.json (some "Ru2"))
        ⟨[alice], []⟩).trace, ev.isExec = false) ∧
      (RefreshToken memDB (DefaultConfig "k") (toyEnv 0 200) (.json (some "Ru2"))
        ⟨[alice], []⟩).db = ⟨[alice], []⟩) :=
  ⟨(failed_refresh_leaves_store_untouched memDB (DefaultConfig "k") (toyEnv 0 200)
      (.json (some "Xu1")) ⟨[alice], []⟩ ⟨"Xu1"⟩ rfl).1 "token is expired" rfl,
   (failed_refresh_leaves_store_untouched memDB (DefaultConfig "k") (toyEnv 0 200)
      (.json (some "Ru2")) ⟨[alice], []⟩ ⟨"Ru2"⟩ rfl).2 ⟨"u2"⟩ .ErrNoRows rfl rfl⟩

/-! ## Refresh: the best-effort timestamp update (C6) -/

theorem issueTokens_response {σ τ : Type} (cfg : Config) (env : Env) (user : User) (s : σ)
    (s2 : τ) (tr tr2 : List Event) :
    (issueTokens cfg env user s tr).status = (issueTokens cfg env user s2 tr2).status ∧
    (issueTokens cfg env user s tr).body = (issueTokens cfg env user s2 tr2).body := by
  unfold issueTokens
  cases env.codec.GenerateAccessToken user.ID user.Role cfg.JWTSecret
      cfg.AccessTokenDuration with
  | error e => exact ⟨rfl, rfl⟩
  | ok a =>
    cases env.codec.GenerateRefreshToken user.ID cfg.JWTSecret cfg.RefreshTokenDuration with
    | error e => exact ⟨rfl, rfl⟩
    | ok r => exact ⟨rfl, rfl⟩

theorem issueTokens_trace_mem {σ : Type} (cfg : Config) (env : Env) (user : User) (s : σ)
    (tr : List Event) (ev : Event) (h : ev ∈ tr) :
    ev ∈ (issueTokens cfg env user s tr).trace := by
  unfold issueTokens
  cases env.codec.GenerateAccessToken user.ID user.Role cfg.JWTSecret
      cfg.AccessTokenDuration with
  | error e => exact List.mem_append_left _ h
  | ok a =>
    cases env.codec.GenerateRefreshToken user.ID cfg.JWTSecret cfg.RefreshTokenDuration with
    | error e => exact List.mem_append_left _ (List.mem_append_left _ h)
    | ok r => exact List.mem_append_left _ (List.mem_append_left _ h)

/-- C6: for every refresh whose token verifies and whose identity is found,
status and body of the response are the same whatever the `UPDATE` of the
last-update timestamp does (the same handler run against any other behaviour
`touch2` of that statement, with the same token functions, answers alike); when
the `UPDATE` fails with `e`, the line
`Warning: Failed to update updated_at: e` is printed, and with both tokens
issued the answer is still `200` with the tokens and the identity. -/
theorem touch_failure_is_not_fatal {σ : Type} (db : DB σ)
    (touch2 : σ → String → Time → String → σ × Except SqlError Unit) (cfg : Config)
    (env : Env) (reqBody : ReqBody) (s : σ) (req : RefreshTokenRequest) (claims : Claims)
    (user : User)
    (hbind : ShouldBindJSON reqBody = .ok req)
    (hval : env.codec.ValidateRefreshToken req.RefreshToken cfg.JWTSecret = .ok claims)
    (hsel : (db.selectByID s cfg.TableName claims.UserID).2 = .ok user) :
    (RefreshToken db cfg env reqBody s).status
      = (RefreshToken { db with execTouch := touch2 } cfg env reqBody s).status ∧
    (RefreshToken db cfg env reqBody s).body
      = (RefreshToken { db with execTouch := touch2 } cfg env reqBody s).body ∧
    (∀ e, (db.execTouch (db.selectByID s cfg.TableName claims.UserID).1 cfg.TableName env.now
        user.ID).2 = .error e →
      Event.printf ("Warning: Failed to update updated_at: " ++ e.Error ++ "\n")
        ∈ (RefreshToken db cfg env reqBody s).trace ∧
      ∀ a r,
        env.codec.GenerateAccessToken user.ID user.Role cfg.JWTSecret
          cfg.AccessTokenDuration = .ok a →
        env.codec.GenerateRefreshToken user.ID cfg.JWTSecret
          cfg.RefreshTokenDuration = .ok r →
        (RefreshToken db cfg env reqBody s).status = StatusOK ∧
        (RefreshToken db cfg env reqBody s).body = .login ⟨a, r, user⟩) := by
  have h1 := RefreshToken_of_found db cfg env reqBody s req claims user hbind hval hsel
  have h2 := RefreshToken_of_found { db with execTouch := touch2 } cfg env reqBody s req claims
    user hbind hval hsel
  refine ⟨?_, ?_, ?_⟩
  · rw [h1, h2]
    exact (issueTokens_response cfg env user _ _ _ _).1
  · rw [h1, h2]
    exact (issueTokens_response cfg env user _ _ _ _).2
  · intro e he
    rw [h1]
    constructor
    · apply issueTokens_trace_mem
      rw [he]
      simp [touchEvents]
    · intro a r hA hR
      rw [issueTokens_ok cfg env user _ _ a r hA hR]
      exact ⟨rfl, rfl⟩

/-- Concrete run: `alice` refreshes while the `UPDATE`
hits an injected failure; the comparison run uses an `UPDATE` that succeeds
without changing the table. -/
theorem touch_failure_is_not_fatal_witness :
    (RefreshToken memDB (DefaultConfig "k") (toyEnv 0 200) (.json (some "Ru1"))
        ⟨[alice], [none, some "disk full"]⟩).status
      = (RefreshToken { memDB with execTouch := fun m _ _ _ => (m, .ok ()) }
          (DefaultConfig "k") (toyEnv 0 200) (.json (some "Ru1"))
          ⟨[alice], [none, some "disk full"]⟩).status ∧
    (RefreshToken memDB (DefaultConfig "k") (toyEnv 0 200) (.json (some "Ru1"))
        ⟨[alice], [none, some "disk full"]⟩).body
      = (RefreshToken { memDB with execTouch := fun m _ _ _ => (m, .ok ()) }
          (DefaultConfig "k") (toyEnv 0 200) (.json (some "Ru1"))
          ⟨[alice], [none, some "disk full"]⟩).body ∧
    Event.printf ("Warning: Failed to update updated_at: " ++ "disk full" ++ "\n")
      ∈ (RefreshToken memDB (DefaultConfig "k") (toyEnv 0 200) (.json (some "Ru1"))
        ⟨[alice], [none, some "disk full"]⟩).trace ∧
    (RefreshToken memDB (DefaultConfig "k") (toyEnv 0 200) (.json (some "Ru1"))
        ⟨[alice], [none, some "disk full"]⟩).status = StatusOK ∧
    (RefreshToken memDB (DefaultConfig "k") (toyEnv 0 200) (.json (some "Ru1"))
        ⟨[alice], [none, some "disk full"]⟩).body = .login ⟨"Au1", "Ru1", alice⟩ :=
  have h := touch_failure_is_not_fatal memDB (fun m _ _ _ => (m, .ok ())) (DefaultConfig "k")
    (toyEnv 0 200) (.json (some "Ru1")) ⟨[alice], [none, some "disk full"]⟩ ⟨"Ru1"⟩ ⟨"u1"⟩
    alice rfl rfl rfl
  ⟨h.1, h.2.1, (h.2.2 (.other "disk full") rfl).1,
    ((h.2.2 (.other "disk full") rfl).2 "Au1" "Ru1" rfl rfl).1,
    ((h.2.2 (.other "disk full") rfl).2 "Au1" "Ru1" rfl rfl).2⟩

/-! ## Guest login: tokens, record shape, persistence failure (C7, C8, C9) -/

theorem issueTokens_of_status_ok {σ : Type} (cfg : Config) (env : Env) (user : User) (s : σ)
    (tr : List Event) (h : (issueTokens cfg env user s tr).status = StatusOK) :
    ∃ a r,
      env.codec.GenerateAccessToken user.ID user.Role cfg.JWTSecret
        cfg.AccessTokenDuration = .ok a ∧
      env.codec.GenerateRefreshToken user.ID cfg.JWTSecret cfg.RefreshTokenDuration = .ok r ∧
      issueTokens cfg env user s tr =
        ⟨StatusOK, .login ⟨a, r, user⟩, s,
          tr ++ [Event.issueAccess user.ID user.Role cfg.JWTSecret cfg.AccessTokenDuration]
            ++ [Event.issueRefresh user.ID cfg.JWTSecret cfg.RefreshTokenDuration]⟩ := by
  cases hA : env.codec.GenerateAccessToken user.ID user.Role cfg.JWTSecret
      cfg.AccessTokenDuration with
  | error e =>
    unfold issueTokens at h
    simp only [hA] at h
    exact absurd h status_500_ne_200
  | ok a =>
    cases hR : env.codec.GenerateRefreshToken user.ID cfg.JWTSecret
        cfg.RefreshTokenDuration with
    | error e =>
      unfold issueTokens at h
      simp only [hA, hR] at h
      exact absurd h status_500_ne_200
    | ok r => exact ⟨a, r, rfl, rfl, issueTokens_ok cfg env user s tr a r hA hR⟩

theorem issueTokens_body_user {σ : Type} (cfg : Config) (env : Env) (user : User) (s : σ)
    (tr : List Event) (lr : LoginResponse) (h : (issueTokens cfg env user s tr).body = .login lr) :
    lr.User = user := by
  unfold issueTokens at h
  cases hA : env.codec.GenerateAccessToken user.ID user.Role cfg.JWTSecret
      cfg.AccessTokenDuration with
  | error e =>
    simp only [hA] at h
    exact Body.noConfusion h
  | ok a =>
    cases hR : env.codec.GenerateRefreshToken user.ID cfg.JWTSecret
        cfg.RefreshTokenDuration with
    | error e =>
      simp only [hA, hR] at h
      exact Body.noConfusion h
    | ok r =>
      simp only [hA, hR] at h
      injection h with h
      rw [← h]

/-- C7: for every `GuestLogin` answered `200`, the body is a login response
whose access token is the result of `GenerateAccessToken` for the returned
user id and role with the configured secret and access-token lifetime, and
whose refresh token is the result of `GenerateRefreshToken` for the same user
id with the refresh-token lifetime; hence, for a codec whose verification
yields the subject a token was generated for, `Authorize` on the access token
yields the returned user id. -/
theorem guestLogin_tokens_bound_to_user {σ : Type} (db : DB σ) (cfg : Config) (env : Env)
    (s : σ) (res : Result σ) (hrun : GuestLogin db cfg env s = .ok res)
    (hok : res.status = StatusOK) :
    ∃ a r user, res.body = .login ⟨a, r, user⟩ ∧
      env.codec.GenerateAccessToken user.ID user.Role cfg.JWTSecret
        cfg.AccessTokenDuration = .ok a ∧
      env.codec.GenerateRefreshToken user.ID cfg.JWTSecret cfg.RefreshTokenDuration = .ok r ∧
      Event.issueAccess user.ID user.Role cfg.JWTSecret cfg.AccessTokenDuration ∈ res.trace ∧
      Event.issueRefresh user.ID cfg.JWTSecret cfg.RefreshTokenDuration ∈ res.trace ∧
      ((∀ uid role secret d t, env.codec.GenerateAccessToken uid role secret d = .ok t →
          ∃ c, env.codec.ValidateAccessToken t secret = .ok c ∧ c.UserID = uid) →
        Authorize env.codec cfg a = .ok user.ID) := by
  by_cases hpos : 0 < intnArg cfg
  · rw [GuestLogin_of_pos db cfg env s hpos] at hrun
    cases hins : (db.insertReturning s cfg.TableName (guestRow cfg env env.draw)).2 with
    | error e =>
      simp only [hins] at hrun
      injection hrun with hrun
      rw [← hrun] at hok
      exact absurd hok status_500_ne_200
    | ok ret =>
      simp only [hins] at hrun
      injection hrun with hrun
      rw [← hrun] at hok
      obtain ⟨a, r, hA, hR, hres⟩ := issueTokens_of_status_ok cfg env _ _ _ hok
      rw [hres] at hrun
      refine ⟨a, r, scanGuestRow ret, ?_, hA, hR, ?_, ?_, ?_⟩
      · rw [← hrun]
      · rw [← hrun]
        simp
      · rw [← hrun]
        simp
      · intro hsound
        obtain ⟨c, hc, hcid⟩ := hsound _ _ _ _ a hA
        unfold Authorize
        rw [hc]
        exact congrArg Except.ok hcid
  · rw [GuestLogin_of_nonpos db cfg env s (not_lt.mp hpos)] at hrun
    exact Except.noConfusion hrun

theorem guestRun_eq :
    GuestLogin memDB (DefaultConfig "k") (toyEnv 41 1000) ⟨[], []⟩ = .ok guestRun := by
  rw [GuestLogin_of_pos _ _ _ _ (by decide)]
  rfl

theorem toyCodec_sound (uid : String) (role : UserRole) (secret : String) (d : Int)
    (t : String) (h : toyCodec.GenerateAccessToken uid role secret d = .ok t) :
    ∃ c, toyCodec.ValidateAccessToken t secret = .ok c ∧ c.UserID = uid := by
  have ht : t = String.mk ('A' :: uid.data) := by
    injection h with h
    exact h.symm
  subst ht
  exact ⟨⟨uid⟩, rfl, rfl⟩

/-- Concrete run on `guestRun`, with the codec
hypothesis discharged for `toyCodec`. -/
theorem guestLogin_tokens_bound_to_user_witness :
    ∃ a r user, guestRun.body = .login ⟨a, r, user⟩ ∧
      toyCodec.GenerateAccessToken user.ID user.Role "k" 7200000000000 = .ok a ∧
      toyCodec.GenerateRefreshToken user.ID "k" 2592000000000000 = .ok r ∧
      Event.issueAccess user.ID user.Role "k" 7200000000000 ∈ guestRun.trace ∧
      Event.issueRefresh user.ID "k" 2592000000000000 ∈ guestRun.trace ∧
      Authorize toyCodec (DefaultConfig "k") a = .ok user.ID := by
  obtain ⟨a, r, user, h1, h2, h3, h4, h5, h6⟩ :=
    guestLogin_tokens_bound_to_user memDB (DefaultConfig "k") (toyEnv 41 1000) ⟨[], []⟩
      guestRun guestRun_eq rfl
  exact ⟨a, r, user, h1, h2, h3, h4, h5, h6 toyCodec_sound⟩

/-- C8: every `GuestLogin` that reaches the store (the draw has a positive
bound) submits to the `INSERT` a row with role `USER`, guest flag true, no
`google_id` column, and `created_at` and `updated_at` both equal to the one
clock reading; when the store returns the row as written, the identity in a
login response has guest flag true, role `USER` and no federated-provider id. -/
theorem guestLogin_record_shape {σ : Type} (db : DB σ) (cfg : Config) (env : Env) (s : σ)
    (hpos : 0 < intnArg cfg) :
    ∃ res row, GuestLogin db cfg env s = .ok res ∧
      res.trace.head? = some (Event.dbInsert cfg.TableName row) ∧
      row.role = RoleUser ∧ row.is_guest = true ∧ "google_id" ∉ insertColumns ∧
      row.created_at = env.now ∧ row.updated_at = env.now ∧
      row.created_at = row.updated_at ∧
      ((db.insertReturning s cfg.TableName row).2 = .ok row →
        ∀ lr, res.body = .login lr →
          lr.User.IsGuest = true ∧ lr.User.Role = RoleUser ∧ lr.User.GoogleID = none ∧
          lr.User.CreatedAt = env.now ∧ lr.User.UpdatedAt = env.now) := by
  have hrun := GuestLogin_of_pos db cfg env s hpos
  cases hins : (db.insertReturning s cfg.TableName (guestRow cfg env env.draw)).2 with
  | error e =>
    simp only [hins] at hrun
    refine ⟨_, guestRow cfg env env.draw, hrun, rfl, rfl, rfl, by decide, rfl, rfl, rfl, ?_⟩
    intro _ lr hlr
    exact Body.noConfusion hlr
  | ok ret =>
    simp only [hins] at hrun
    refine ⟨_, guestRow cfg env env.draw, hrun, issueTokens_trace_head _ _ _ _ _ _, rfl, rfl,
      by decide, rfl, rfl, rfl, ?_⟩
    intro hret lr hlr
    have hsame : ret = guestRow cfg env env.draw := by
      rw [hins] at hret
      injection hret
    have huser := issueTokens_body_user cfg env _ _ _ lr hlr
    rw [huser, hsame]
    exact ⟨rfl, rfl, rfl, rfl, rfl⟩

/-- Concrete run: default range, drawn value `41`, clock
at `1000`, empty in-memory table (which returns the row as written). -/
theorem guestLogin_record_shape_witness :
    ∃ res row, GuestLogin memDB (DefaultConfig "k") (toyEnv 41 1000) ⟨[], []⟩ = .ok res ∧
      res.trace.head? = some (Event.dbInsert "outcome_user" row) ∧
      row.role = RoleUser ∧ row.is_guest = true ∧ "google_id" ∉ insertColumns ∧
      row.created_at = 1000 ∧ row.updated_at = 1000 ∧
      row.created_at = row.updated_at ∧
      ((memDB.insertReturning ⟨[], []⟩ "outcome_user" row).2 = .ok row →
        ∀ lr, res.body = .login lr →
          lr.User.IsGuest = true ∧ lr.User.Role = RoleUser ∧ lr.User.GoogleID = none ∧
          lr.User.CreatedAt = 1000 ∧ lr.User.UpdatedAt = 1000) :=
  guestLogin_record_shape memDB (DefaultConfig "k") (toyEnv 41 1000) ⟨[], []⟩ (by decide)

/-- C9: when the store rejects the `INSERT` of `GuestLogin`, the handler sends
that `INSERT` once and nothing else (its effects are exactly the one
statement: no retry, no token generated), answers `500` with the message
`Failed to create user`, and the body carries no token. -/
theorem guestLogin_persistence_failure {σ : Type} (db : DB σ) (cfg : Config) (env : Env)
    (s : σ) (e : SqlError) (hpos : 0 < intnArg cfg)
    (hins : (db.insertReturning s cfg.TableName (guestRow cfg env env.draw)).2 = .error e) :
    ∃ res, GuestLogin db cfg env s = .ok res ∧
      res.status = StatusInternalServerError ∧
      res.body = .error "Failed to create user" ∧
      res.trace = [Event.dbInsert cfg.TableName (guestRow cfg env env.draw)] ∧
      (res.trace.filter Event.isInsert).length = 1 ∧
      (∀ ev ∈ res.trace, ev.isIssue = false) ∧
      (∀ lr, res.body ≠ .login lr) ∧
      res.db = (db.insertReturning s cfg.TableName (guestRow cfg env env.draw)).1 := by
  have hrun := GuestLogin_of_pos db cfg env s hpos
  simp only [hins] at hrun
  refine ⟨_, hrun, rfl, rfl, rfl, rfl, ?_, ?_, rfl⟩
  · intro ev hev
    rw [List.mem_singleton] at hev
    rw [hev]
    rfl
  · intro lr hlr
    exact Body.noConfusion hlr

/-- Concrete run: the `INSERT` hits an injected
unique-constraint violation. -/
theorem guestLogin_persistence_failure_witness :
    ∃ res, GuestLogin memDB (DefaultConfig "k") (toyEnv 41 1000)
        ⟨[alice], [some "duplicate key"]⟩ = .ok res ∧
      res.status = StatusInternalServerError ∧
      res.body = .error "Failed to create user" ∧
      res.trace = [Event.dbInsert "outcome_user"
        (guestRow (DefaultConfig "k") (toyEnv 41 1000) 41)] ∧
      (res.trace.filter Event.isInsert).length = 1 ∧
      (∀ ev ∈ res.trace, ev.isIssue = false) ∧
      (∀ lr, res.body ≠ .login lr) ∧
      res.db = ⟨[alice], []⟩ :=
  guestLogin_persistence_failure memDB (DefaultConfig "k") (toyEnv 41 1000)
    ⟨[alice], [some "duplicate key"]⟩ (.other "duplicate key") (by decide) rfl

end GoAuth
